import Mathlib

/-!
# Windows System Management Tool — checking the specification against the code

Shallow embedding of the remote session registry / fan-out core described by the
specification and of the disk- and package-management functions found in the
sources, together with theorems settling the specification's claims.

The remote-core implementation (`src/core/remote/manager.py`) is not among the
provided source files — only its caller `src/ui/main/remote_handler.py` is — so
the registry, fan-out and connection-store definitions below are modelled from
the specification's words, as marked in their doc comments.  Every other
definition is a direct translation of the named source function.
-/

namespace SysMgmt

/-! ## String helpers (models of the Python string operations used by the code) -/

/-- Character-list prefix test, step of the substring search below. -/
def prefChars : List Char → List Char → Bool
  | [], _ => true
  | _ :: _, [] => false
  | a :: as, b :: bs => a == b && prefChars as bs

/-- Character-list substring test: models the Python `needle in hay` operator
(the empty needle is contained in every string). -/
def subChars (n : List Char) : List Char → Bool
  | [] => n.isEmpty
  | b :: bs => prefChars n (b :: bs) || subChars n bs

/-- Model of the Python `str.upper()` on the ASCII data appearing in the code. -/
def strUpper (s : String) : String := ⟨s.data.map Char.toUpper⟩

/-- Model of the Python `str.lower()` on the ASCII data appearing in the code. -/
def strLower (s : String) : String := ⟨s.data.map Char.toLower⟩

/-- Model of the Python `needle in hay` operator for strings. -/
def strHas (hay needle : String) : Bool := subChars needle.data hay.data

/-- Model of the Python `str.strip()` (whitespace removal at both ends). -/
def strStrip (s : String) : String :=
  ⟨((s.data.dropWhile Char.isWhitespace).reverse.dropWhile Char.isWhitespace).reverse⟩

/-- Model of the Python `str.endswith` for a one-character suffix. -/
def endsWithChar (s : String) (c : Char) : Bool := s.data.getLast? == some c

/-- Model of the Python slice `s[:-1]`. -/
def strDropLast (s : String) : String := ⟨s.data.dropLast⟩

/-- Model of the Python one-character `str.split`. -/
def splitChar (sep : Char) : List Char → List (List Char)
  | [] => [[]]
  | c :: cs =>
    let rest := splitChar sep cs
    if c == sep then [] :: rest
    else
      match rest with
      | r :: rs => (c :: r) :: rs
      | [] => [[c]]

/-- Model of the Python one-character `str.split` on strings. -/
def pySplit (s : String) (sep : Char) : List String :=
  (splitChar sep s.data).map (fun cs => ⟨cs⟩)

/-! ## Remote core: ConnectionRecord, RemoteSession, SessionRegistry

Modelled from the spec (§3, §4.1, §4.2): the implementing module
`src/core/remote/manager.py` is not part of the provided sources. -/

/-- Modelled from the spec: ConnectionRecord (§3) — name (unique key), hostname,
username, credential reference, saved flag. -/
structure ConnectionRecord where
  name : String
  hostname : String
  username : String
  credential_ref : String
  saved : Bool
deriving DecidableEq

/-- Modelled from the spec: the RemoteSession state machine states (§4.1). -/
inductive SessionState where
  | connecting
  | connected
  | disconnected
  | failed
deriving DecidableEq

/-- Modelled from the spec: RemoteSession (§3) — record reference, connection
state, last error. -/
structure RemoteSession where
  record : ConnectionRecord
  state : SessionState
  last_error : Option String
deriving DecidableEq

/-- Modelled from the spec: `is_alive` (§4.1) — a session is live exactly in the
`connected` state. -/
def RemoteSession.is_alive (s : RemoteSession) : Bool :=
  match s.state with
  | .connected => true
  | _ => false

/-- Modelled from the spec: the typed connect failures (§4.1, §7): AuthError,
NetworkError, TimeoutError. -/
inductive ConnErr where
  | auth
  | network
  | timeout
deriving DecidableEq

/-- Modelled from the spec: SessionRegistry / RemoteManager (§4.2) — ordered
association of record names to the only live RemoteSession for that record,
kept in insertion order. -/
structure Registry where
  sessions : List (String × RemoteSession)
deriving DecidableEq

/-- Session stored for a record name (first match in insertion order). -/
def Registry.lookup (reg : Registry) (name : String) : Option RemoteSession :=
  match reg.sessions.find? (fun p => p.1 == name) with
  | some p => some p.2
  | none => none

/-- Fresh connected session for a record. -/
def freshSession (r : ConnectionRecord) : RemoteSession :=
  { record := r, state := .connected, last_error := none }

/-- Modelled from the spec: RemoteManager.connect (§4.1, §4.2) — if a session
already exists for `r.name`, reuse it if alive, else tear it down and recreate;
the transport/authentication outcome is an oracle argument; on failure a typed
error is returned and no partial session is retained (registry unchanged). -/
def Registry.connect (reg : Registry) (r : ConnectionRecord)
    (t : Except ConnErr Unit) : Registry × Except ConnErr RemoteSession :=
  match reg.lookup r.name with
  | some s =>
    if s.is_alive then (reg, .ok s)
    else
      match t with
      | .ok _ =>
        (⟨reg.sessions.filter (fun p => !(p.1 == r.name)) ++ [(r.name, freshSession r)]⟩,
          .ok (freshSession r))
      | .error e => (reg, .error e)
  | none =>
    match t with
    | .ok _ => (⟨reg.sessions ++ [(r.name, freshSession r)]⟩, .ok (freshSession r))
    | .error e => (reg, .error e)

/-- Modelled from the spec: the is-connected query over the session set (§4.2). -/
def Registry.is_connected (reg : Registry) (name : String) : Bool :=
  match reg.lookup name with
  | some s => s.is_alive
  | none => false

/-- Modelled from the spec: RemoteManager.disconnect(name) (§4.2) — tears down
the named session (teardown outcome is an oracle); internal errors are logged,
never propagated; the boolean reports whether a genuine session existed. -/
def Registry.disconnect (reg : Registry) (name : String)
    (teardown : RemoteSession → Except String Unit) :
    Registry × Bool × List String :=
  match reg.lookup name with
  | some s =>
    (⟨reg.sessions.filter (fun p => !(p.1 == name))⟩, true,
      match teardown s with
      | .ok _ => []
      | .error e => ["Error during disconnect: " ++ e])
  | none => (reg, false, [])

/-- Modelled from the spec: RemoteManager.disconnect_all (§4.2) — tears down all
sessions, logging and never propagating teardown errors. -/
def Registry.disconnect_all (reg : Registry)
    (teardown : RemoteSession → Except String Unit) :
    Registry × Bool × List String :=
  (⟨[]⟩, !reg.sessions.isEmpty,
    reg.sessions.foldr
      (fun p acc =>
        (match teardown p.2 with
         | .ok _ => []
         | .error e => ["Error during disconnect: " ++ e]) ++ acc) [])

/-- Number of live sessions the registry holds for a record name. -/
def Registry.liveCount (reg : Registry) (name : String) : Nat :=
  (reg.sessions.filter (fun p => p.1 == name && p.2.is_alive)).length

/-- Sample record "alpha" for concrete scenarios. -/
def recA : ConnectionRecord :=
  { name := "alpha", hostname := "pc-a", username := "admin",
    credential_ref := "cred-a", saved := true }

/-- Sample record "beta" for concrete scenarios. -/
def recB : ConnectionRecord :=
  { name := "beta", hostname := "pc-b", username := "admin",
    credential_ref := "cred-b", saved := true }

/-! ## Registry lemmas -/

/-- A lookup miss is exactly a find? miss on the session list. -/
theorem lookup_eq_none_iff (reg : Registry) (name : String) :
    reg.lookup name = none ↔ reg.sessions.find? (fun p => p.1 == name) = none := by
  unfold Registry.lookup
  cases reg.sessions.find? (fun p => p.1 == name) <;> simp

/-- A lookup hit comes from a find? hit on the session list. -/
theorem lookup_eq_some_elim (reg : Registry) (name : String) (s : RemoteSession)
    (h : reg.lookup name = some s) :
    ∃ p, reg.sessions.find? (fun q => q.1 == name) = some p ∧ p.2 = s := by
  unfold Registry.lookup at h
  cases hf : reg.sessions.find? (fun q => q.1 == name) with
  | none => rw [hf] at h; cases h
  | some p => rw [hf] at h; cases h; exact ⟨p, rfl, rfl⟩

/-- With no stored session for `name`, no pair of the list passes the live filter. -/
theorem filter_live_nil_of_find_none (l : List (String × RemoteSession)) (name : String)
    (h : l.find? (fun p => p.1 == name) = none) :
    l.filter (fun p => p.1 == name && p.2.is_alive) = [] := by
  rw [List.filter_eq_nil_iff]
  intro p hp
  have hnp := List.find?_eq_none.mp h p hp
  simp only [Bool.not_eq_true] at hnp
  simp [hnp]

/-- Pairs surviving a key-removal filter never pass the live filter for that key. -/
theorem filter_live_nil_of_removed (l : List (String × RemoteSession)) (name : String) :
    (l.filter (fun p => !(p.1 == name))).filter
      (fun p => p.1 == name && p.2.is_alive) = [] := by
  rw [List.filter_eq_nil_iff]
  intro p hp
  have hkey := List.of_mem_filter hp
  simp only [Bool.not_eq_true'] at hkey
  simp [hkey]

/-- Key removal also empties find? for that key. -/
theorem find_none_of_removed (l : List (String × RemoteSession)) (name : String) :
    (l.filter (fun p => !(p.1 == name))).find? (fun p => p.1 == name) = none := by
  rw [List.find?_eq_none]
  intro p hp
  have hkey := List.of_mem_filter hp
  simp only [Bool.not_eq_true'] at hkey
  simp [hkey]

/-- Lookup in a registry whose list ends with a fresh pair for `name`, provided the
front of the list has no entry for `name`. -/
theorem lookup_append_fresh (l : List (String × RemoteSession)) (name : String)
    (s : RemoteSession) (h : l.find? (fun p => p.1 == name) = none) :
    (Registry.mk (l ++ [(name, s)])).lookup name = some s := by
  unfold Registry.lookup
  rw [List.find?_append, h]
  simp

/-- Reusing a live session: connect returns it and leaves the registry unchanged. -/
theorem connect_reuses_live (reg : Registry) (r : ConnectionRecord)
    (t : Except ConnErr Unit) (s : RemoteSession)
    (hl : reg.lookup r.name = some s) (ha : s.is_alive = true) :
    reg.connect r t = (reg, .ok s) := by
  simp [Registry.connect, hl, ha]

/-- A live lookup hit forces at least one live entry for that name. -/
theorem liveCount_pos_of_lookup_live (reg : Registry) (name : String)
    (s : RemoteSession) (hl : reg.lookup name = some s) (ha : s.is_alive = true) :
    1 ≤ reg.liveCount name := by
  obtain ⟨p, hf, hp2⟩ := lookup_eq_some_elim reg name s hl
  have hmem := List.mem_of_find?_eq_some hf
  have hkey := List.find?_some hf
  have hlive : (fun q : String × RemoteSession => q.1 == name && q.2.is_alive) p = true := by
    simp only [hkey, hp2, ha, Bool.and_self]
  have : p ∈ reg.sessions.filter (fun q => q.1 == name && q.2.is_alive) :=
    List.mem_filter.mpr ⟨hmem, hlive⟩
  have := List.length_pos_of_mem this
  unfold Registry.liveCount
  omega

/-- A fresh session is alive. -/
theorem freshSession_alive (r : ConnectionRecord) : (freshSession r).is_alive = true := rfl

/-- Appending a fresh pair to a list with no live entry for the record name leaves
exactly one live session for it. -/
theorem liveCount_append_fresh (l : List (String × RemoteSession)) (r : ConnectionRecord)
    (h : l.filter (fun p => p.1 == r.name && p.2.is_alive) = []) :
    (Registry.mk (l ++ [(r.name, freshSession r)])).liveCount r.name = 1 := by
  unfold Registry.liveCount
  rw [List.filter_append, h, List.nil_append]
  simp [freshSession_alive]

/-- After a successful connect the registry holds exactly one live session for the
record, and lookup returns the session the call yielded. -/
theorem connect_ok_live (reg : Registry) (r : ConnectionRecord)
    (t : Except ConnErr Unit) (s : RemoteSession)
    (hinv : reg.liveCount r.name ≤ 1)
    (h : (reg.connect r t).2 = .ok s) :
    (reg.connect r t).1.lookup r.name = some s ∧ s.is_alive = true ∧
      (reg.connect r t).1.liveCount r.name = 1 := by
  cases hl : reg.lookup r.name with
  | some s₀ =>
    cases ha : s₀.is_alive with
    | true =>
      rw [connect_reuses_live reg r t s₀ hl ha] at h ⊢
      cases h
      refine ⟨hl, ha, ?_⟩
      have hpos := liveCount_pos_of_lookup_live reg r.name _ hl ha
      show reg.liveCount r.name = 1
      omega
    | false =>
      cases t with
      | error e => simp [Registry.connect, hl, ha] at h
      | ok u =>
        have hconn : reg.connect r (.ok u) =
            (⟨reg.sessions.filter (fun p => !(p.1 == r.name)) ++
                [(r.name, freshSession r)]⟩, .ok (freshSession r)) := by
          simp [Registry.connect, hl, ha]
        rw [hconn] at h ⊢
        cases h
        have hfind := find_none_of_removed reg.sessions r.name
        refine ⟨lookup_append_fresh _ _ _ hfind, rfl, ?_⟩
        exact liveCount_append_fresh _ r (filter_live_nil_of_removed reg.sessions r.name)
  | none =>
    cases t with
    | error e => simp [Registry.connect, hl] at h
    | ok u =>
      have hconn : reg.connect r (.ok u) =
          (⟨reg.sessions ++ [(r.name, freshSession r)]⟩, .ok (freshSession r)) := by
        simp [Registry.connect, hl]
      rw [hconn] at h ⊢
      cases h
      have hfind := (lookup_eq_none_iff reg r.name).mp hl
      refine ⟨lookup_append_fresh _ _ _ hfind, rfl, ?_⟩
      exact liveCount_append_fresh _ r (filter_live_nil_of_find_none _ _ hfind)

/-! ## Claim theorems for the registry -/

/-- C1: starting from a registry respecting the at-most-one-live-session invariant for
`r.name`, calling connect(r) twice without an intervening disconnect leaves exactly one
live session for `r` in the registry, and the second call does not change the registry
at all (the live session is reused, never duplicated). -/
theorem connect_twice_one_live_session (reg : Registry) (r : ConnectionRecord)
    (t₁ t₂ : Except ConnErr Unit) (s : RemoteSession)
    (hinv : reg.liveCount r.name ≤ 1)
    (h₁ : (reg.connect r t₁).2 = .ok s) :
    ((reg.connect r t₁).1.connect r t₂).1.liveCount r.name = 1 ∧
      ((reg.connect r t₁).1.connect r t₂).1 = (reg.connect r t₁).1 := by
  obtain ⟨hlk, hal, hcount⟩ := connect_ok_live reg r t₁ s hinv h₁
  rw [connect_reuses_live (reg.connect r t₁).1 r t₂ s hlk hal]
  exact ⟨hcount, rfl⟩

/-- Witness for C1 at a concrete input: double connect of "alpha" on the empty
registry yields exactly one live session. -/
theorem connect_twice_one_live_session_witness :
    (((Registry.mk []).connect recA (.ok ())).1.connect recA (.ok ())).1.liveCount
        recA.name = 1 ∧
      (((Registry.mk []).connect recA (.ok ())).1.connect recA (.ok ())).1 =
        ((Registry.mk []).connect recA (.ok ())).1 :=
  connect_twice_one_live_session ⟨[]⟩ recA (.ok ()) (.ok ())
    (freshSession recA) (by decide) (by rfl)

/-- C2: the registry holds several concurrently open sessions, one per connected host:
connecting "alpha" then "beta" leaves both hosts connected at once (two stored
sessions), and disconnecting "alpha" keeps "beta" connected. -/
theorem registry_holds_multiple_sessions :
    ((((Registry.mk []).connect recA (.ok ())).1.connect recB (.ok ())).1.is_connected
        "alpha" = true) ∧
      ((((Registry.mk []).connect recA (.ok ())).1.connect recB (.ok ())).1.is_connected
        "beta" = true) ∧
      ((((Registry.mk []).connect recA (.ok ())).1.connect recB
        (.ok ())).1.sessions.length = 2) ∧
      (((((Registry.mk []).connect recA (.ok ())).1.connect recB (.ok ())).1.disconnect
        "alpha" (fun _ => .ok ())).1.is_connected "alpha" = false) ∧
      (((((Registry.mk []).connect recA (.ok ())).1.connect recB (.ok ())).1.disconnect
        "alpha" (fun _ => .ok ())).1.is_connected "beta" = true) := by
  decide

/-- C5: a failed connect is atomic — it reports a typed error (auth, network or
timeout, the transport's own failure) and leaves the registry exactly as it was,
retaining no partial session. -/
theorem connect_failure_atomic (reg : Registry) (r : ConnectionRecord)
    (t : Except ConnErr Unit) (e : ConnErr)
    (h : (reg.connect r t).2 = .error e) :
    (reg.connect r t).1 = reg ∧
      (e = .auth ∨ e = .network ∨ e = .timeout) ∧ t = .error e := by
  have htyped : e = ConnErr.auth ∨ e = ConnErr.network ∨ e = ConnErr.timeout := by
    cases e
    · exact Or.inl rfl
    · exact Or.inr (Or.inl rfl)
    · exact Or.inr (Or.inr rfl)
  cases hl : reg.lookup r.name with
  | some s₀ =>
    cases ha : s₀.is_alive with
    | true => rw [connect_reuses_live reg r t s₀ hl ha] at h; cases h
    | false =>
      cases t with
      | error e' =>
        have hconn : reg.connect r (.error e') = (reg, .error e') := by
          simp [Registry.connect, hl, ha]
        rw [hconn] at h ⊢
        cases h
        exact ⟨rfl, htyped, rfl⟩
      | ok u => simp [Registry.connect, hl, ha] at h
  | none =>
    cases t with
    | error e' =>
      have hconn : reg.connect r (.error e') = (reg, .error e') := by
        simp [Registry.connect, hl]
      rw [hconn] at h ⊢
      cases h
      exact ⟨rfl, htyped, rfl⟩
    | ok u => simp [Registry.connect, hl] at h

/-- Witness for C5 at a concrete input: connecting "alpha" with a failing transport on
the empty registry leaves it empty and yields the typed auth error. -/
theorem connect_failure_atomic_witness :
    ((Registry.mk []).connect recA (.error .auth)).1 = Registry.mk [] ∧
      (ConnErr.auth = .auth ∨ ConnErr.auth = .network ∨ ConnErr.auth = .timeout) ∧
      (Except.error ConnErr.auth : Except ConnErr Unit) = .error ConnErr.auth :=
  connect_failure_atomic ⟨[]⟩ recA (.error .auth) .auth (by rfl)

/-! ## Fan-out executor (modelled from the spec, §3 and §4.3) -/

/-- Modelled from the spec: OperationRequest (§3) — operation kind, parameters and
target host set. -/
structure OperationRequest where
  kind : String
  params : List (String × String)
  targets : List String

/-- Modelled from the spec: the per-host execution failures of the taxonomy (§7). -/
inductive ExecErr where
  | remote_exec (msg : String)
  | session_closed
  | timed_out
deriving DecidableEq

/-- Modelled from the spec: one per-host entry of the aggregate OperationResult (§3). -/
structure HostResult where
  host : String
  outcome : Except ExecErr String

/-- Modelled from the spec: FanOutExecutor (§4.3) — resolve the target sessions from
the registry at dispatch time; invoke execute per host (outcome oracle `exec`),
recording a `session_closed` entry for a target without a live session; assemble the
results preserving target order; an empty target set yields the empty aggregate. -/
def fan_out (reg : Registry) (req : OperationRequest)
    (exec : String → RemoteSession → Except ExecErr String) : List HostResult :=
  req.targets.map (fun n =>
    match reg.lookup n with
    | some s => if s.is_alive then ⟨n, exec n s⟩ else ⟨n, .error .session_closed⟩
    | none => ⟨n, .error .session_closed⟩)

/-- Each dispatched entry reports the host it was resolved for. -/
theorem fan_out_entry_host (reg : Registry)
    (exec : String → RemoteSession → Except ExecErr String) (n : String) :
    (match reg.lookup n with
      | some s =>
        if s.is_alive then HostResult.mk n (exec n s)
        else HostResult.mk n (.error .session_closed)
      | none => HostResult.mk n (.error .session_closed)).host = n := by
  cases reg.lookup n with
  | some s => cases h : s.is_alive <;> simp [h]
  | none => rfl

/-- C3: the fan-out aggregate has exactly one entry per targeted host, listed in the
order the target set was resolved at dispatch time, and an empty target set yields the
empty aggregate rather than an error. -/
theorem fan_out_shape (reg : Registry) (req : OperationRequest)
    (exec : String → RemoteSession → Except ExecErr String) :
    (fan_out reg req exec).length = req.targets.length ∧
      (fan_out reg req exec).map HostResult.host = req.targets ∧
      fan_out reg { req with targets := [] } exec = [] := by
  refine ⟨by simp [fan_out], ?_, rfl⟩
  unfold fan_out
  rw [List.map_map]
  have hcongr : ∀ n ∈ req.targets,
      (HostResult.host ∘ fun n =>
        match reg.lookup n with
        | some s =>
          if s.is_alive then HostResult.mk n (exec n s)
          else HostResult.mk n (.error .session_closed)
        | none => HostResult.mk n (.error .session_closed)) n = id n :=
    fun n _ => fan_out_entry_host reg exec n
  rw [List.map_congr_left hcongr, List.map_id]

/-! ## Disconnect flow

`RemoteHandler.disconnect` is translated from `src/ui/main/remote_handler.py`
(lines 33-46); the registry-side `disconnect`/`disconnect_all` above are modelled
from the spec (§4.2). -/

/-- UI pieces touched by RemoteHandler.disconnect: the status-bar connection flag and
text, and the remote-feature enable flag. -/
structure UiState where
  connection_status : Bool
  status_text : String
  remote_features : Bool
deriving DecidableEq

/-- Observable outcome of one RemoteHandler.disconnect call: the updated UI state, the
logged error lines, the warning boxes shown, and the exception propagated to the
caller, if any. -/
structure DisconnectOutcome where
  ui : UiState
  logged : List String
  warning_boxes : List (String × String)
  raised : Option String
deriving DecidableEq

/-- Model of RemoteHandler.disconnect (src/ui/main/remote_handler.py, lines 33-46):
runs the manager disconnect (outcome `inner`), then updates the UI; any exception is
caught, logged and surfaced as a warning box — never re-raised. -/
def RemoteHandler.disconnect (ui : UiState) (inner : Except String Unit) :
    DisconnectOutcome :=
  match inner with
  | .ok _ =>
    { ui := { connection_status := false, status_text := "Disconnected",
              remote_features := false },
      logged := [], warning_boxes := [], raised := none }
  | .error e =>
    { ui := ui,
      logged := ["Error during disconnect: " ++ e],
      warning_boxes := [("Disconnect Error", "Error during disconnect: " ++ e)],
      raised := none }

/-- C4: disconnect always succeeds from the caller's perspective: the UI handler never
re-raises (raised = none, for every inner outcome), an inner error is logged instead,
and the registry-level disconnect and disconnect-all always return, reporting through
their result whether a genuine session existed. -/
theorem disconnect_never_fails_caller (ui : UiState) (inner : Except String Unit)
    (e : String) (reg : Registry) (name : String)
    (teardown : RemoteSession → Except String Unit) :
    (RemoteHandler.disconnect ui inner).raised = none ∧
      (RemoteHandler.disconnect ui (.error e)).logged =
        ["Error during disconnect: " ++ e] ∧
      (RemoteHandler.disconnect ui (.error e)).raised = none ∧
      ((reg.disconnect name teardown).2.1 = (reg.lookup name).isSome) ∧
      ((reg.disconnect_all teardown).2.1 = !reg.sessions.isEmpty) := by
  refine ⟨?_, rfl, rfl, ?_, rfl⟩
  · cases inner <;> rfl
  · cases h : reg.lookup name <;> simp [Registry.disconnect, h]

/-! ## Connection store (modelled from the spec, §6) -/

/-- Modelled from the spec: one entry of the persisted connection store (§6) — name
(unique), hostname, username and a credential reference; the password itself lives in
OS-level secret storage, never in the persisted entry. -/
structure PersistedRecord where
  name : String
  hostname : String
  username : String
  credential_ref : String
deriving DecidableEq

/-- Modelled from the spec: the OS-level secret storage (§6), keyed by connection
name. -/
structure SecretStore where
  entries : List (String × String)
deriving DecidableEq

/-- Modelled from the spec: RemoteManager.add_connection (§4.2, §6) — appends a
persisted record whose credential field is the secret-storage handle (the connection
name) and routes the password into secret storage; duplicate names are rejected. -/
def add_connection (store : List PersistedRecord) (secrets : SecretStore)
    (name hostname username password : String) :
    List PersistedRecord × SecretStore × Bool :=
  if store.any (fun rec => rec.name == name) then (store, secrets, false)
  else
    (store ++ [{ name := name, hostname := hostname, username := username,
                 credential_ref := name }],
      ⟨secrets.entries ++ [(name, password)]⟩, true)

/-- C7: the persisted connection store never receives the cleartext password: the
persisted component of add_connection is independent of the password value, and the
call either leaves the store unchanged or appends a record whose credential field is
the OS-secret-storage handle (the connection name), not the password. -/
theorem persisted_store_password_free (store : List PersistedRecord)
    (secrets : SecretStore) (name hostname username p₁ p₂ : String) :
    (add_connection store secrets name hostname username p₁).1 =
        (add_connection store secrets name hostname username p₂).1 ∧
      ((add_connection store secrets name hostname username p₁).1 = store ∨
        (add_connection store secrets name hostname username p₁).1 =
          store ++ [{ name := name, hostname := hostname, username := username,
                      credential_ref := name }]) := by
  cases h : store.any (fun rec => rec.name == name) <;>
    simp [add_connection, h]

/-! ## DiskManager (translated from src/ui/panels/disk/manager.py) -/

/-- Information record returned by DiskManager.get_drive_letters_info. -/
structure DriveLettersInfo where
  all_letters : List String
  used_letters : List String
  available_letters : List String
deriving DecidableEq

/-- All possible drive letters "A:".."Z:" as the source builds them
(`chr(i)` for i in 65..90, followed by a colon). -/
def azLetters : List String :=
  (List.range 26).map (fun i => String.mk [Char.ofNat (65 + i), ':'])

/-- Model of DiskManager.get_drive_letters_info (src/ui/panels/disk/manager.py,
lines 35-70).  The input is the list of partition device strings reported by psutil
(`none` models the branch where psutil raises, taking the fallback values); a used
letter is the two-character prefix of a device string of length at least two. -/
def get_drive_letters_info (partitions : Option (List String)) : DriveLettersInfo :=
  match partitions with
  | some devices =>
    let used := devices.filterMap (fun d => if 2 ≤ d.length then some (d.take 2) else none)
    { all_letters := azLetters, used_letters := used,
      available_letters := azLetters.filter (fun l => !(used.contains l)) }
  | none =>
    { all_letters := azLetters, used_letters := [], available_letters := azLetters }

/-- C8: get_drive_letters_info always reports all_letters = "A:".."Z:" in order, and
available_letters is exactly the sublist of all_letters whose members are not in
used_letters; on the exception fallback used_letters is empty and available_letters
equals all_letters. -/
theorem drive_letters_info_shape (ps : List String) :
    ((get_drive_letters_info (some ps)).all_letters =
        ["A:", "B:", "C:", "D:", "E:", "F:", "G:", "H:", "I:", "J:", "K:", "L:", "M:",
         "N:", "O:", "P:", "Q:", "R:", "S:", "T:", "U:", "V:", "W:", "X:", "Y:", "Z:"] ∧
      (get_drive_letters_info (some ps)).available_letters =
        (get_drive_letters_info (some ps)).all_letters.filter
          (fun l => !((get_drive_letters_info (some ps)).used_letters.contains l))) ∧
    ((get_drive_letters_info none).all_letters =
        ["A:", "B:", "C:", "D:", "E:", "F:", "G:", "H:", "I:", "J:", "K:", "L:", "M:",
         "N:", "O:", "P:", "Q:", "R:", "S:", "T:", "U:", "V:", "W:", "X:", "Y:", "Z:"] ∧
      (get_drive_letters_info none).used_letters = [] ∧
      (get_drive_letters_info none).available_letters =
        (get_drive_letters_info none).all_letters) := by
  have haz : azLetters =
      ["A:", "B:", "C:", "D:", "E:", "F:", "G:", "H:", "I:", "J:", "K:", "L:", "M:",
       "N:", "O:", "P:", "Q:", "R:", "S:", "T:", "U:", "V:", "W:", "X:", "Y:", "Z:"] := by
    decide
  exact ⟨⟨haz, rfl⟩, ⟨haz, rfl, rfl⟩⟩

/-- Outcome oracle for the `WNetAddConnection2` win32 call inside
DiskManager.map_network_drive. -/
inductive WnetOutcome where
  | ok
  | err (code : Nat) (msg : String)
deriving DecidableEq

/-- Environment oracle for DiskManager.map_network_drive: whether the win32 modules
import, the WNetAddConnection2 outcome, and the captured output of the mapping
subprocess. -/
structure MapEnv where
  import_ok : Bool
  import_err : String
  wnet : WnetOutcome
  proc_stdout : String
  proc_stderr : String
deriving DecidableEq

/-- Result of DiskManager.map_network_drive: the success flag and error text of the
returned dictionary, plus the argument lists of every subprocess invocation issued
during the call. -/
structure MapResult where
  success : Bool
  error : Option String
  calls : List (List String)
deriving DecidableEq

/-- Model of DiskManager.map_network_drive (src/ui/panels/disk/manager.py, lines
239-437): normalise the drive letter, pre-delete any existing mapping, then map the
share either with current Windows credentials (plain `net use`) or with custom
credentials (win32 WNetAddConnection2; on a 1219 error list the existing connections
and build an advisory message — text abridged here — and on any other error fall back
to a `net use /user:` command carrying the password); finally classify success by
searching for "error" in the lower-cased stderr text, running a ping diagnostic on the
custom-credential failure path. -/
def map_network_drive (env : MapEnv) (network_path drive_letter : String)
    (use_windows_creds : Bool) (username password : String) (reconnect : Bool) :
    MapResult :=
  let dl := if drive_letter.length = 1 then drive_letter ++ ":" else drive_letter
  let persist := "/persistent:" ++ (if reconnect then "yes" else "no")
  let calls0 := [["net", "use", dl, "/delete", "/y"]]
  let step :=
    if use_windows_creds then
      (calls0 ++ [["net", "use", dl, network_path, persist]],
        env.proc_stdout, env.proc_stderr)
    else if !env.import_ok then
      (calls0, "", "Failed to import win32 modules: " ++ env.import_err)
    else
      match env.wnet with
      | .ok =>
        (calls0, "Successfully mapped " ++ network_path ++ " to " ++ dl ++
          " using win32 API", "")
      | .err code _msg =>
        if code == 1219 then
          let server := (pySplit network_path '\\').getD 2 "server"
          (calls0 ++ [["net", "use"]], "",
            "Cannot connect to " ++ network_path ++ " with user " ++ username ++
            " because you already have a connection to the same server with " ++
            "different credentials. Please disconnect existing connections to " ++
            server ++ " first.")
        else
          (calls0 ++ [["net", "use", dl, network_path, "/user:" ++ username,
            password, persist]], env.proc_stdout, env.proc_stderr)
  let calls := step.1
  let stderrText := step.2.2
  if stderrText ≠ "" && strHas (strLower stderrText) "error" then
    let calls := calls ++
      (if !use_windows_creds then
        match (pySplit network_path '\\').get? 2 with
        | some server => [["ping", "-n", "1", server]]
        | none => []
      else [])
    { success := false, error := some stderrText, calls := calls }
  else
    { success := true, error := none, calls := calls }

/-- C6: with custom credentials (use_windows_creds false) and a non-1219 win32
failure, map_network_drive hands the cleartext password verbatim to a subprocess
argument list: at this concrete input the password "hunter2" appears among the
arguments of a spawned command. -/
theorem password_on_command_line :
    (map_network_drive
        { import_ok := true, import_err := "", wnet := .err 5 "Access is denied.",
          proc_stdout := "", proc_stderr := "System error 5 has occurred." }
        "\\\\server\\share" "Z:" false "alice" "hunter2" true).calls.any
      (fun args => args.contains "hunter2") = true := by
  decide

/-- Result record of the network-drive operations: success flag, error text and
warning text of the returned dictionary. -/
structure DiskResult where
  success : Bool
  error : Option String
  warning : Option String
deriving DecidableEq

/-- Drive-letter normalisation of DiskManager.disconnect_network_drive (lines
456-461): strip surrounding whitespace, append a colon to a bare letter, drop a
trailing backslash. -/
def normalizeDrive (dl : String) : String :=
  let s := strStrip dl
  if s.length = 1 then s ++ ":"
  else if endsWithChar s '\\' then strDropLast s
  else s

/-- Mapped-drive test of DiskManager.disconnect_network_drive (line 471): the
normalised drive letter, uppercased, occurs as a substring of the uppercased
`net use` output. -/
def driveListed (netUseOutput dl : String) : Bool :=
  strHas (strUpper netUseOutput) (strUpper dl)

/-- Environment oracle for disconnect_network_drive: the output of the `net use`
listing and the return code / output of the delete subprocess. -/
structure NetEnv where
  net_use_output : String
  delete_returncode : Nat
  delete_stdout : String
  delete_stderr : String
deriving DecidableEq

/-- Model of DiskManager.disconnect_network_drive (src/ui/panels/disk/manager.py,
lines 439-531), returning the result dictionary and the argument lists of the
subprocess invocations it issued. -/
def disconnect_network_drive (env : NetEnv) (drive_letter : String) :
    DiskResult × List (List String) :=
  if drive_letter = "" then
    ({ success := false, error := some "No drive letter specified", warning := none },
      [])
  else
    let dl := normalizeDrive drive_letter
    if !(driveListed env.net_use_output dl) then
      ({ success := true, error := none,
         warning := some ("Drive " ++ dl ++ " is not mapped as a network drive") },
        [["net", "use"]])
    else
      let calls := [["net", "use"], ["net", "use", dl, "/delete", "/y"]]
      if env.delete_returncode ≠ 0 then
        if strHas env.delete_stdout "The network connection could not be found" then
          ({ success := true, error := none,
             warning := some "The drive was already disconnected" }, calls)
        else
          ({ success := false,
             error := some (if env.delete_stdout ≠ "" then env.delete_stdout
               else env.delete_stderr),
             warning := none }, calls)
      else
        ({ success := true, error := none, warning := none }, calls)

/-- C9: a non-empty drive letter that is not listed (case-insensitively) in the
`net use` output yields success with a warning and no delete command (the only
subprocess run is the `net use` listing), while the empty drive letter yields
success = false before any subprocess runs. -/
theorem disconnect_unmapped_drive_succeeds (env : NetEnv) (dl : String)
    (hne : dl ≠ "")
    (hnl : driveListed env.net_use_output (normalizeDrive dl) = false) :
    (disconnect_network_drive env dl).1.success = true ∧
      (disconnect_network_drive env dl).1.warning.isSome = true ∧
      (disconnect_network_drive env dl).2 = [["net", "use"]] ∧
      (disconnect_network_drive env "").1.success = false ∧
      (disconnect_network_drive env "").2 = [] := by
  simp [disconnect_network_drive, hne, hnl]

/-- Witness for C9 at a concrete input: drive "Z:" against an empty `net use`
output. -/
theorem disconnect_unmapped_drive_succeeds_witness :
    (disconnect_network_drive ⟨"", 0, "", ""⟩ "Z:").1.success = true ∧
      (disconnect_network_drive ⟨"", 0, "", ""⟩ "Z:").1.warning.isSome = true ∧
      (disconnect_network_drive ⟨"", 0, "", ""⟩ "Z:").2 = [["net", "use"]] ∧
      (disconnect_network_drive ⟨"", 0, "", ""⟩ "").1.success = false ∧
      (disconnect_network_drive ⟨"", 0, "", ""⟩ "").2 = [] :=
  disconnect_unmapped_drive_succeeds ⟨"", 0, "", ""⟩ "Z:" (by decide) (by decide)

/-! ## PackagesTree (translated from src/ui/panels/packages/tree_widget.py) -/

/-- Model of a QTreeWidgetItem: its per-column text strings. -/
structure TreeItem where
  texts : List String
deriving DecidableEq

/-- Model of QTreeWidgetItem.text(i): the column text, empty for a missing column. -/
def TreeItem.text (item : TreeItem) (i : Nat) : String := item.texts.getD i ""

/-- Model of the PackagesTree widget state: the top-level items in insertion order. -/
structure PackagesTree where
  items : List TreeItem
deriving DecidableEq

/-- Model of PackagesTree.add_program (src/ui/panels/packages/tree_widget.py, lines
44-69): builds a six-column item from the arguments, appends it as a top-level item
and returns it. -/
def PackagesTree.add_program (tree : PackagesTree) (name version publisher
    install_date install_location registry_key : String) : PackagesTree × TreeItem :=
  let item : TreeItem :=
    ⟨[name, version, publisher, install_date, install_location, registry_key]⟩
  (⟨tree.items ++ [item]⟩, item)

/-- Program description dictionary returned by PackagesTree.get_program. -/
structure ProgramInfo where
  name : String
  version : String
  publisher : String
  install_date : String
  install_location : String
  registry_key : String
deriving DecidableEq

/-- Model of PackagesTree.get_program (src/ui/panels/packages/tree_widget.py, lines
71-87): reads the six column texts of an item back into a dictionary. -/
def PackagesTree.get_program (item : TreeItem) : ProgramInfo :=
  { name := item.text 0, version := item.text 1, publisher := item.text 2,
    install_date := item.text 3, install_location := item.text 4,
    registry_key := item.text 5 }

/-- C10: add_program / get_program round-trip — reading back the item created by
add_program returns exactly the six strings passed in, unchanged. -/
theorem add_get_program_round_trip (tree : PackagesTree)
    (name version publisher install_date install_location registry_key : String) :
    PackagesTree.get_program
        (tree.add_program name version publisher install_date install_location
          registry_key).2 =
      { name := name, version := version, publisher := publisher,
        install_date := install_date, install_location := install_location,
        registry_key := registry_key } := rfl

end SysMgmt
